import Mathlib

/-!
Verification of the SCAN causal model and PPO reward scoring of this
repository, as a shallow embedding in Lean.

The embedding follows `src/experiments/SCAN/causal_model/causal_model_v1_pyvene.py`
(lexicon dictionaries, node functions, parents graph, command padder) and
`src/experiments/rl_expts/rl_trainers.py` (`PPOTrainer.score_function`).
Python strings are modelled as Lean `String`; the Python string primitives
used by the code (`str.strip`, `s * n`, `str.replace`, indexing) are modelled
below as character-list operations; dictionary lookup (which can raise
`KeyError`) is modelled with `Option`.
-/

namespace ScanCausal

/-- Model of Python `str.strip` stripping from the left: drop leading
whitespace characters. -/
def stripL (l : List Char) : List Char := l.dropWhile Char.isWhitespace

/-- Model of Python `str.strip` stripping from the right: drop trailing
whitespace characters. -/
def stripR (l : List Char) : List Char := (l.reverse.dropWhile Char.isWhitespace).reverse

/-- Character-list model of Python `str.strip`: drop whitespace on both ends. -/
def stripList (l : List Char) : List Char := stripR (stripL l)

/-- Model of Python `str.strip` on strings. -/
def pyStrip (s : String) : String := ⟨stripList s.data⟩

/-- Model of Python `s * n` for strings: `n` concatenated copies of `s`. -/
def pyRepeat (s : String) : Nat → String
  | 0 => ""
  | n + 1 => s ++ pyRepeat s n

/-- Character-list test whether `pat` occurs at the head of `l`. -/
def leadsWith : List Char → List Char → Bool
  | [], _ => true
  | _ :: _, [] => false
  | a :: as, b :: bs => a = b && leadsWith as bs

/-- Character-list model of Python `str.replace old new`: scan left to right,
replacing each non-overlapping occurrence of `old` by `new`.  The recursion is
driven by a fuel argument so that it is structural (every step consumes at
least one character, so any fuel of at least the list's length gives the
replace semantics).  The code only calls it with the non-empty pattern
`"act"`; for an empty pattern this model is the identity. -/
def pyReplaceFuel (old new : List Char) : Nat → List Char → List Char
  | _, [] => []
  | 0, l => l
  | fuel + 1, c :: rest =>
    if old ≠ [] ∧ leadsWith old (c :: rest) then
      new ++ pyReplaceFuel old new fuel ((c :: rest).drop old.length)
    else
      c :: pyReplaceFuel old new fuel rest

/-- Model of Python `s.replace(old, new)` on strings. -/
def pyReplace (s old new : String) : String :=
  ⟨pyReplaceFuel old.data new.data s.data.length s.data⟩

/-! ### Lexicon (source: `causal_model_v1_pyvene.py`, lines 6-50) -/

/-- `max_len = 9` (longest SCAN command). -/
def max_len : Nat := 9

/-- `EMPTY = "EMPTY"` — the dummy/sentinel token for an absent slot. -/
def EMPTY : String := "EMPTY"

/-- The `actions` dictionary: surface action word to resolved primitive. -/
def actions : String → Option String
  | "walk" => some "I_WALK"
  | "run" => some "I_RUN"
  | "jump" => some "I_JUMP"
  | "look" => some "I_LOOK"
  | "turn" => some EMPTY
  | "EMPTY" => some EMPTY
  | _ => none

/-- `list(actions.keys())`. -/
def actionKeys : List String := ["walk", "run", "jump", "look", "turn", EMPTY]

/-- The `turns` dictionary: turn word to repetition marker. -/
def turns : String → Option String
  | "around" => some "yyyy"
  | "opposite" => some "yy"
  | "EMPTY" => some EMPTY
  | _ => none

/-- `list(turns.keys())`. -/
def turnKeys : List String := ["around", "opposite", EMPTY]

/-- The `directions` dictionary: direction word to primitive turn token. -/
def directions : String → Option String
  | "right" => some "I_TURN_RIGHT"
  | "left" => some "I_TURN_LEFT"
  | "EMPTY" => some EMPTY
  | _ => none

/-- `list(directions.keys())`. -/
def directionKeys : List String := ["right", "left", EMPTY]

/-- The `nums` dictionary: number word to repetition marker. -/
def nums : String → Option String
  | "twice" => some "xx"
  | "thrice" => some "xxx"
  | "EMPTY" => some EMPTY
  | _ => none

/-- `list(nums.keys())`. -/
def numKeys : List String := ["twice", "thrice", EMPTY]

/-- `conjs = ["and", "after", EMPTY]`. -/
def conjs : List String := ["and", "after", EMPTY]

/-! ### Node functions (source lines 72-99) -/

/-- `resolve_turn(turn) = turns[turn]` (dictionary lookup, `KeyError` as `none`). -/
def resolve_turn (turn : String) : Option String := turns turn

/-- `turn_function(turn, dir)` from the source: resolve the direction word,
return `EMPTY` if the resolved direction is `EMPTY`; otherwise build the
decorated-action template for the three turn cases and strip it. -/
def turn_function (turn dir : String) : Option String :=
  match directions dir with
  | none => none
  | some d =>
    if d = EMPTY then
      some EMPTY
    else if turn = EMPTY then
      some (pyStrip (d ++ " act "))
    else if turn = "yyyy" then
      some (pyStrip (pyRepeat (d ++ " act ") turn.length))
    else
      some (pyStrip (pyRepeat (d ++ " ") turn.length ++ "act"))

/-- `action_function(act, trn_dir)` from the source: if the turn-direction
template is `EMPTY` return `actions[act]`, else substitute `actions[act]` for
the placeholder `act` throughout the template. -/
def action_function (act trn_dir : String) : Option String :=
  if trn_dir = EMPTY then
    actions act
  else
    (actions act).map (fun p => pyReplace trn_dir "act" p)

/-- `resolve_num(num) = nums[num]`. -/
def resolve_num (num : String) : Option String := nums num

/-- `num_function(act_trn_dir, num)` from the source: pass through when the
marker is `EMPTY`, else repeat `act_trn_dir + " "` `len(num)` times and strip. -/
def num_function (act_trn_dir num : String) : String :=
  if num = EMPTY then act_trn_dir
  else pyStrip (pyRepeat (act_trn_dir ++ " ") num.length)

/-! ### Variables and the parents graph (source lines 56-68 and 183-197) -/

/-- The nine leaf variables, in source order. -/
def leaves : List String :=
  ["act1", "trn1", "dir1", "num1", "conj", "act2", "trn2", "dir2", "num2"]

/-- The twelve non-leaf variables, in source order. -/
def non_leaves : List String :=
  ["trn1_res", "trn1_dir1", "act1_trn1_dir1", "num1_res", "act1_trn1_dir1_num1",
   "trn2_res", "trn2_dir2", "act2_trn2_dir2", "num2_res", "act2_trn2_dir2_num2",
   "conj_res", "rnode"]

/-- `variables = leaves + non_leaves` (named `allVariables` here: `variables`
is a reserved command name in Lean). -/
def allVariables : List String := leaves ++ non_leaves

/-- The `parents` dictionary: initialized to `[]` for every variable, then the
left-subtree and right-subtree entries are assigned.  Nothing in the source
assigns parents to `"conj_res"` or `"rnode"`, so they keep the default `[]`. -/
def parents : String → List String
  | "trn1_res" => ["trn1"]
  | "trn1_dir1" => ["trn1_res", "dir1"]
  | "act1_trn1_dir1" => ["act1", "trn1_dir1"]
  | "num1_res" => ["num1"]
  | "act1_trn1_dir1_num1" => ["act1_trn1_dir1", "num1_res"]
  | "trn2_res" => ["trn2"]
  | "trn2_dir2" => ["trn2_res", "dir2"]
  | "act2_trn2_dir2" => ["act2", "trn2_dir2"]
  | "num2_res" => ["num2"]
  | "act2_trn2_dir2_num2" => ["act2_trn2_dir2", "num2_res"]
  | _ => []

/-- A node is a sink of the parent-name graph when it is the parent of no
variable (no outgoing edge towards a child). -/
def isSinkNode (v : String) : Bool :=
  allVariables.all (fun w => !((parents w).contains v))

/-- Fuel-bounded reachability from the leaf slots along parent-to-child
edges: a node is reachable when it is a leaf or some parent of it is
reachable. -/
def reachLeaves : Nat → String → Bool
  | 0, _ => false
  | fuel + 1, v => leaves.contains v || (parents v).any (reachLeaves fuel)

/-- Reachability from the nine leaf slots (fuel 21 covers all 21 nodes). -/
def reachableFromLeaves (v : String) : Bool := reachLeaves 21 v

/-! ### Value-space enumerator (source lines 145-180) -/

/-- `values["trn1_res"] = [resolve_turn(t) for t in values["trn1"]]`. -/
def values_trn1_res : List String := turnKeys.filterMap resolve_turn

/-- `values["trn1_dir1"]`: `turn_function` applied to the Cartesian product of
`values["trn1_res"]` and `values["dir1"]`, deduplicated (the Python builds a
`set`; the order below is first occurrence order, membership is what matters). -/
def values_trn1_dir1 : List String :=
  ((values_trn1_res.map (fun t => directionKeys.filterMap (fun d => turn_function t d))).flatten).eraseDups

/-- `values["act1_trn1_dir1"]`: `action_function` over the product of
`values["act1"]` and `values["trn1_dir1"]`, deduplicated. -/
def values_act1_trn1_dir1 : List String :=
  ((actionKeys.map (fun a => values_trn1_dir1.filterMap (fun t => action_function a t))).flatten).eraseDups

/-- `values["num1_res"] = [resolve_num(n) for n in values["num1"]]`. -/
def values_num1_res : List String := numKeys.filterMap resolve_num

/-- `values["act1_trn1_dir1_num1"]`: `num_function` over the product of
`values["act1_trn1_dir1"]` and `values["num1_res"]`, deduplicated. -/
def values_act1_trn1_dir1_num1 : List String :=
  ((values_act1_trn1_dir1.map (fun a => values_num1_res.map (fun n => num_function a n))).flatten).eraseDups

/-! ### Command padder (source lines 254-266) -/

/-- `command_structure`: the expected vocabulary for each of the nine slot
positions, as the list of keys checked by the Python `in` test. -/
def vocabList : List (List String) :=
  [actionKeys, turnKeys, directionKeys, numKeys, conjs,
   actionKeys, turnKeys, directionKeys, numKeys]

/-- `command_structure[index]` membership list (`{}` for an index out of the
table, which the loop never reaches). -/
def slotVocab (index : Nat) : List String := vocabList.getD index []

/-- The `__main__` padding loop: `index` runs while `index < max_len`; when
`c < len(command)` and `command[c]` is in the expected vocabulary the word is
consumed, otherwise the slot gets `EMPTY` and `c` stays.  Since `index`
increments on every iteration the loop runs exactly `max_len` times; the
recursion is driven by the remaining iteration count
(`remaining = max_len - index`) so that it is structural. -/
def padGo (command : List String) : Nat → Nat → Nat → List String
  | _, _, 0 => []
  | index, c, remaining + 1 =>
    match command[c]? with
    | some w =>
      if w ∈ slotVocab index then
        w :: padGo command (index + 1) (c + 1) remaining
      else
        EMPTY :: padGo command (index + 1) c remaining
    | none => EMPTY :: padGo command (index + 1) c remaining

/-- `padded_command` as built by the source for a tokenized command. -/
def pad (command : List String) : List String := padGo command 0 0 max_len

/-! ### Forward evaluation -/

/-- A leaf assignment: one value for each of the nine leaf slots
(`causal_model_inputs` in the source). -/
structure LeafAssignment where
  act1 : String
  trn1 : String
  dir1 : String
  num1 : String
  conj : String
  act2 : String
  trn2 : String
  dir2 : String
  num2 : String

/-- Validity of a leaf assignment: every slot value is drawn from the slot's
declared vocabulary (the empty sentinel is a member of each). -/
def validLeafAssignment (L : LeafAssignment) : Bool :=
  actionKeys.contains L.act1 && turnKeys.contains L.trn1 &&
  directionKeys.contains L.dir1 && numKeys.contains L.num1 &&
  conjs.contains L.conj && actionKeys.contains L.act2 &&
  turnKeys.contains L.trn2 && directionKeys.contains L.dir2 &&
  numKeys.contains L.num2

/-- The leaf assignment `{leaves[i]: padded_command[i]}` built by the source
from a padded command. -/
def assignmentOfList (l : List String) : LeafAssignment :=
  ⟨l.getD 0 EMPTY, l.getD 1 EMPTY, l.getD 2 EMPTY, l.getD 3 EMPTY, l.getD 4 EMPTY,
   l.getD 5 EMPTY, l.getD 6 EMPTY, l.getD 7 EMPTY, l.getD 8 EMPTY⟩

/-- Value of node `trn1_res`: `resolve_turn` applied to its parent `trn1`. -/
def eval_trn1_res (L : LeafAssignment) : Option String := resolve_turn L.trn1

/-- Value of node `trn1_dir1`: `turn_function` on parents `(trn1_res, dir1)`. -/
def eval_trn1_dir1 (L : LeafAssignment) : Option String :=
  (eval_trn1_res L).bind (fun t => turn_function t L.dir1)

/-- Value of node `act1_trn1_dir1`: `action_function` on parents
`(act1, trn1_dir1)`. -/
def eval_act1_trn1_dir1 (L : LeafAssignment) : Option String :=
  (eval_trn1_dir1 L).bind (fun td => action_function L.act1 td)

/-- Value of node `num1_res`: `resolve_num` applied to its parent `num1`. -/
def eval_num1_res (L : LeafAssignment) : Option String := resolve_num L.num1

/-- Value of node `act1_trn1_dir1_num1`: `num_function` on parents
`(act1_trn1_dir1, num1_res)`. -/
def eval_act1_trn1_dir1_num1 (L : LeafAssignment) : Option String :=
  (eval_act1_trn1_dir1 L).bind (fun a => (eval_num1_res L).map (fun n => num_function a n))

/-- Value of node `trn2_res` (right subtree mirror). -/
def eval_trn2_res (L : LeafAssignment) : Option String := resolve_turn L.trn2

/-- Value of node `trn2_dir2` (right subtree mirror). -/
def eval_trn2_dir2 (L : LeafAssignment) : Option String :=
  (eval_trn2_res L).bind (fun t => turn_function t L.dir2)

/-- Value of node `act2_trn2_dir2` (right subtree mirror). -/
def eval_act2_trn2_dir2 (L : LeafAssignment) : Option String :=
  (eval_trn2_dir2 L).bind (fun td => action_function L.act2 td)

/-- Value of node `num2_res` (right subtree mirror). -/
def eval_num2_res (L : LeafAssignment) : Option String := resolve_num L.num2

/-- Value of node `act2_trn2_dir2_num2` (right subtree mirror). -/
def eval_act2_trn2_dir2_num2 (L : LeafAssignment) : Option String :=
  (eval_act2_trn2_dir2 L).bind (fun a => (eval_num2_res L).map (fun n => num_function a n))

/-- Modelled from the spec: the forward evaluator (`CausalModel.run_forward`
of the external pyvene library, not part of this repository's sources).
Following the spec's Forward Evaluator contract, every node is computed in
dependency order by applying the node's function (from the source) to the
already-computed values of its parents (the source's `parents` graph);
leaves take the assignment value directly.  In the source graph `"conj_res"`
and `"rnode"` have one-argument identity functions but an empty parents
list, so no value can be computed for them (the Python call
`functions[var]()` of a one-argument lambda raises); this is modelled as
`none`.  An unknown node name also yields `none`. -/
def run_forward (L : LeafAssignment) : String → Option String
  | "act1" => some L.act1
  | "trn1" => some L.trn1
  | "dir1" => some L.dir1
  | "num1" => some L.num1
  | "conj" => some L.conj
  | "act2" => some L.act2
  | "trn2" => some L.trn2
  | "dir2" => some L.dir2
  | "num2" => some L.num2
  | "trn1_res" => eval_trn1_res L
  | "trn1_dir1" => eval_trn1_dir1 L
  | "act1_trn1_dir1" => eval_act1_trn1_dir1 L
  | "num1_res" => eval_num1_res L
  | "act1_trn1_dir1_num1" => eval_act1_trn1_dir1_num1 L
  | "trn2_res" => eval_trn2_res L
  | "trn2_dir2" => eval_trn2_dir2 L
  | "act2_trn2_dir2" => eval_act2_trn2_dir2 L
  | "num2_res" => eval_num2_res L
  | "act2_trn2_dir2_num2" => eval_act2_trn2_dir2_num2 L
  | _ => none

/-! ### Spec-side string helpers (used to state the claims independently of
the implementation's `strip`/`*`/`replace` formulations) -/

/-- Space-join a list of strings with a single separating space and no
trailing separator. -/
def spaceJoin : List String → String
  | [] => ""
  | [s] => s
  | s :: t :: rest => s ++ " " ++ spaceJoin (t :: rest)

/-- Split a character list at every space character. -/
def splitChars : List Char → List (List Char)
  | [] => [[]]
  | c :: rest =>
    if c = ' ' then [] :: splitChars rest
    else
      match splitChars rest with
      | [] => [[c]]
      | t :: ts => (c :: t) :: ts

/-- Split a string into its space-separated tokens (model of Python
`str.split` for the single-spaced strings this program produces). -/
def splitSp (s : String) : List String := (splitChars s.data).map (fun l => ⟨l⟩)

/-- The claim's description of the Command Padder, written from the spec's
words: walk the nine per-position vocabularies in order; if the next
unconsumed word belongs to the current position's vocabulary it is consumed
into that slot, otherwise the slot is the empty sentinel and the same word is
retried at the next position; words left over when the positions run out are
dropped. -/
def padSpecGo : List (List String) → List String → List String
  | [], _ => []
  | _ :: vs, [] => EMPTY :: padSpecGo vs []
  | v :: vs, w :: ws =>
    if w ∈ v then w :: padSpecGo vs ws
    else EMPTY :: padSpecGo vs (w :: ws)

/-- The spec-described padder over the nine fixed position vocabularies. -/
def padSpec (words : List String) : List String := padSpecGo vocabList words

/-! ### Concrete inputs used by the claims -/

/-- The `__main__` demo command, tokenized. -/
def demoCommand : List String := splitSp "run opposite left after walk right"

/-- The leaf assignment the source builds from the padded demo command. -/
def demoAssignment : LeafAssignment := assignmentOfList (pad demoCommand)

/-- The all-sentinel leaf assignment (every slot `EMPTY`), a valid leaf
assignment. -/
def allEmptyAssignment : LeafAssignment :=
  ⟨EMPTY, EMPTY, EMPTY, EMPTY, EMPTY, EMPTY, EMPTY, EMPTY, EMPTY⟩

end ScanCausal

namespace RLTrainers

/-- `PPOTrainer.score_function` from `src/experiments/rl_expts/rl_trainers.py`:
token-id tensors are modelled as integer lists (the 0/1 float scores carry no
fractional values, so they are modelled as `Nat`), elementwise tensor masking
as `zipWith`, and raising as `Except.error`.  `metric='acc'` computes the
per-step score and its mask; `metric='incr_acc'` is an empty branch in the
source, after which the `return` reads unbound locals (an `UnboundLocalError`
at runtime); any other metric raises
`ValueError('Incorrect metric passed to score function')`. -/
def score_function (ignore_index pad_token_id : Int)
    (output_ids gen_label_ids context_label_ids : List Int)
    (metric : String) : Except String (List Nat × List Nat) :=
  if metric = "acc" then
    let score0 := List.zipWith (fun o g => if o = g then (1 : Nat) else 0) output_ids gen_label_ids
    let score1 := List.zipWith (fun s c => if c ≠ ignore_index then 0 else s) score0 context_label_ids
    let score := List.zipWith (fun s g => if g = pad_token_id then 0 else s) score1 gen_label_ids
    let mask0 := score.map (fun _ => (1 : Nat))
    let mask1 := List.zipWith (fun s c => if c ≠ ignore_index then 0 else s) mask0 context_label_ids
    let score_mask := List.zipWith (fun s g => if g = pad_token_id then 0 else s) mask1 gen_label_ids
    Except.ok (score, score_mask)
  else if metric = "incr_acc" then
    Except.error "UnboundLocalError"
  else
    Except.error "Incorrect metric passed to score function"

end RLTrainers

namespace ScanCausal

/-!
## Theorems

The claim theorems and their witnesses/counterexamples, preceded by the
helper lemmas they share.
-/

/-- C1: the Command Padder pads `"run opposite left after walk right"` to the
nine claimed slots (this half of the claim holds), but forward evaluation of
that leaf assignment leaves the root node `"rnode"` without any value — the
source never wires parents for `"conj_res"`/`"rnode"` (cf. the source's
`TODO : Test both parts together`), so the root value is not the claimed
`"I_TURN_LEFT I_TURN_LEFT I_RUN I_TURN_RIGHT I_WALK"`; only the two clause
subtrees produce their halves of that sequence. -/
theorem demo_padding_ok_but_rnode_unwired :
    pad demoCommand = ["run", "opposite", "left", EMPTY, "after", "walk", EMPTY, "right", EMPTY]
    ∧ run_forward demoAssignment "act1_trn1_dir1_num1" = some "I_TURN_LEFT I_TURN_LEFT I_RUN"
    ∧ run_forward demoAssignment "act2_trn2_dir2_num2" = some "I_TURN_RIGHT I_WALK"
    ∧ run_forward demoAssignment "rnode" = none
    ∧ ¬ run_forward demoAssignment "rnode"
        = some "I_TURN_LEFT I_TURN_LEFT I_RUN I_TURN_RIGHT I_WALK" := by
  decide

/-- C2: forward evaluation is not total on the source graph: at the valid
all-sentinel leaf assignment exactly the two unwired nodes `"conj_res"` and
`"rnode"` (identity functions of one argument but no parents in the source's
`parents` dictionary) receive no value, so no Setting covering all 21 nodes
exists. -/
theorem run_forward_misses_conj_res_and_rnode :
    validLeafAssignment allEmptyAssignment = true
    ∧ allVariables.filter (fun v => (run_forward allEmptyAssignment v).isNone)
        = ["conj_res", "rnode"] := by
  decide

/-- C3: the parent-name graph of the source has five sinks — `"conj"`,
`"act1_trn1_dir1_num1"`, `"act2_trn2_dir2_num2"`, `"conj_res"` and
`"rnode"` — not the single sink `"rnode"`, and `"conj_res"`/`"rnode"` are
not reachable from the nine leaf slots (their parents lists are empty). -/
theorem parent_graph_has_five_sinks :
    allVariables.filter isSinkNode
      = ["conj", "act1_trn1_dir1_num1", "act2_trn2_dir2_num2", "conj_res", "rnode"]
    ∧ reachableFromLeaves "conj_res" = false
    ∧ reachableFromLeaves "rnode" = false
    ∧ parents "conj_res" = [] ∧ parents "rnode" = [] := by
  decide

/-- C4: for each non-empty direction word, `turn_function` produces
`"<DIR> act"` for the empty turn, `"<DIR> act "` four times (trimmed) for
the 4-repetition marker resolved from `"around"`, and `"<DIR> "` twice plus
`"act"` for the 2-repetition marker resolved from `"opposite"`. -/
theorem turn_function_case_analysis :
    turn_function EMPTY "right" = some "I_TURN_RIGHT act"
    ∧ turn_function EMPTY "left" = some "I_TURN_LEFT act"
    ∧ (resolve_turn "around").bind (fun t => turn_function t "right")
        = some "I_TURN_RIGHT act I_TURN_RIGHT act I_TURN_RIGHT act I_TURN_RIGHT act"
    ∧ (resolve_turn "around").bind (fun t => turn_function t "left")
        = some "I_TURN_LEFT act I_TURN_LEFT act I_TURN_LEFT act I_TURN_LEFT act"
    ∧ (resolve_turn "opposite").bind (fun t => turn_function t "right")
        = some "I_TURN_RIGHT I_TURN_RIGHT act"
    ∧ (resolve_turn "opposite").bind (fun t => turn_function t "left")
        = some "I_TURN_LEFT I_TURN_LEFT act" := by
  decide

/-- C5 counterexample: with the 2-repetition turn marker and the empty
direction, `turn_function` does not return the empty string `""` — it
returns the sentinel `"EMPTY"`. -/
theorem turn_function_empty_dir_not_empty_string :
    ¬ ((resolve_turn "opposite").bind (fun t => turn_function t EMPTY) = some "") := by
  decide

/-- C5 (amended): for every turn value, `turn_function` applied with the
empty direction sentinel returns the empty sentinel string `"EMPTY"` (not
`""`): the resolved direction is compared against `EMPTY` before the turn is
examined. -/
theorem turn_function_empty_dir_sentinel (turn : String) :
    turn_function turn EMPTY = some EMPTY := rfl

/-- C6: for every action word of the lexicon and every turn-direction
template of the enumerated `trn1_dir1` domain, `action_function` returns the
action's resolved primitive alone when the template is the empty sentinel,
and otherwise the template with every `"act"` placeholder token replaced by
the resolved primitive (token-wise substitution of all occurrences). -/
theorem action_function_substitutes_all_occurrences :
    ∀ a ∈ actionKeys, ∀ t ∈ values_trn1_dir1,
      action_function a t = (actions a).map (fun p =>
        if t = EMPTY then p
        else spaceJoin ((splitSp t).map (fun w => if w = "act" then p else w))) := by
  decide

/-- C6 witness: instantiation at the action `"run"` and the four-occurrence
`"around"` template, exercising substitution of several occurrences. -/
theorem action_function_substitutes_all_occurrences_witness :
    action_function "run" "I_TURN_LEFT act I_TURN_LEFT act I_TURN_LEFT act I_TURN_LEFT act"
      = (actions "run").map (fun p =>
        if ("I_TURN_LEFT act I_TURN_LEFT act I_TURN_LEFT act I_TURN_LEFT act" : String) = EMPTY then p
        else spaceJoin ((splitSp "I_TURN_LEFT act I_TURN_LEFT act I_TURN_LEFT act I_TURN_LEFT act").map
          (fun w => if w = "act" then p else w))) :=
  action_function_substitutes_all_occurrences "run" (by decide)
    "I_TURN_LEFT act I_TURN_LEFT act I_TURN_LEFT act I_TURN_LEFT act" (by decide)

/-- The length of `dropWhile` output never exceeds the input length. -/
theorem length_dropWhile_le (p : Char → Bool) (l : List Char) :
    (l.dropWhile p).length ≤ l.length := by
  induction l with
  | nil => simp
  | cons a t ih =>
    by_cases hp : p a
    · rw [List.dropWhile_cons_of_pos hp]
      exact Nat.le_succ_of_le ih
    · rw [List.dropWhile_cons_of_neg hp]

/-- `dropWhile` returning a list of full length is the identity. -/
theorem dropWhile_eq_self_of_length (p : Char → Bool) (l : List Char)
    (h : (l.dropWhile p).length = l.length) : l.dropWhile p = l := by
  cases l with
  | nil => rfl
  | cons a t =>
    by_cases hp : p a
    · rw [List.dropWhile_cons_of_pos hp] at h ⊢
      have := length_dropWhile_le p t
      simp at h
      omega
    · rw [List.dropWhile_cons_of_neg hp]

/-- If `dropWhile p` leaves a non-empty list unchanged, its head fails `p`. -/
theorem head_false_of_dropWhile_eq_self (p : Char → Bool) (a : Char) (t : List Char)
    (h : (a :: t).dropWhile p = a :: t) : p a = false := by
  by_cases hp : p a
  · rw [List.dropWhile_cons_of_pos hp] at h
    have := length_dropWhile_le p t
    have hl := congrArg List.length h
    simp at hl
    omega
  · simpa using hp

/-- A list unchanged by a full strip is unchanged by each one-sided strip. -/
theorem strip_sides_of_stripList_eq {l : List Char} (h : stripList l = l) :
    stripL l = l ∧ stripR l = l := by
  have h1 : (stripL l).length ≤ l.length := length_dropWhile_le _ l
  have h2 : (stripR (stripL l)).length ≤ (stripL l).length := by
    simpa [stripR] using length_dropWhile_le Char.isWhitespace (stripL l).reverse
  have h3 : (stripR (stripL l)).length = l.length := by rw [show stripR (stripL l) = l from h]
  have hL : stripL l = l := by
    apply dropWhile_eq_self_of_length
    simp only [stripL] at h1 h2 h3 ⊢
    omega
  refine ⟨hL, ?_⟩
  have := h
  rwa [stripList, hL] at this

/-- Left strip leaves a list alone when its head is not whitespace. -/
theorem stripL_append_of_head {a : Char} (t m : List Char) (h : Char.isWhitespace a = false) :
    stripL ((a :: t) ++ m) = (a :: t) ++ m := by
  simp only [stripL, List.cons_append]
  exact List.dropWhile_cons_of_neg (by simp [h])

/-- Right strip removes exactly one trailing space from a right-stripped list. -/
theorem stripR_append_space {l : List Char} (hR : stripR l = l) :
    stripR (l ++ [' ']) = l := by
  simp only [stripR, List.reverse_append] at *
  rw [show ([' '] : List Char).reverse ++ l.reverse = ' ' :: l.reverse by simp]
  rw [List.dropWhile_cons_of_pos (by decide)]
  exact hR

/-- Python `strip` removes exactly one trailing space appended to a
non-empty, already-stripped character list. -/
theorem stripList_append_space {l : List Char} (h : stripList l = l) (hne : l ≠ []) :
    stripList (l ++ [' ']) = l := by
  obtain ⟨hL, hR⟩ := strip_sides_of_stripList_eq h
  cases l with
  | nil => exact absurd rfl hne
  | cons a t =>
    have ha : Char.isWhitespace a = false := head_false_of_dropWhile_eq_self _ a t hL
    rw [stripList, stripL_append_of_head t [' '] ha]
    exact stripR_append_space hR

/-- `spaceJoin` of two or more copies peels one copy and one space. -/
theorem spaceJoin_replicate_succ (s : String) (n : Nat) :
    spaceJoin (List.replicate (n + 2) s) = s ++ " " ++ spaceJoin (List.replicate (n + 1) s) := by
  rw [List.replicate_succ, List.replicate_succ]
  rfl

/-- The Python repetition `(s + " ") * (n+1)` is the space-join of `n+1`
copies of `s` followed by one trailing space. -/
theorem pyRepeat_data_spaceJoin (s : String) : ∀ n : Nat,
    (pyRepeat (s ++ " ") (n + 1)).data = (spaceJoin (List.replicate (n + 1) s)).data ++ [' ']
  | 0 => by simp [pyRepeat, String.data_append, List.replicate, spaceJoin]
  | n + 1 => by
    rw [show pyRepeat (s ++ " ") (n + 2) = (s ++ " ") ++ pyRepeat (s ++ " ") (n + 1) from rfl]
    rw [String.data_append, pyRepeat_data_spaceJoin s n, spaceJoin_replicate_succ,
      String.data_append, String.data_append]
    simp [String.data_append]

/-- The space-join of copies of `s` starts with the characters of `s`. -/
theorem spaceJoin_replicate_data_head (s : String) : ∀ n : Nat,
    ∃ rest, (spaceJoin (List.replicate (n + 1) s)).data = s.data ++ rest
  | 0 => ⟨[], by simp [List.replicate, spaceJoin]⟩
  | n + 1 => by
    obtain ⟨rest, hrest⟩ := spaceJoin_replicate_data_head s n
    refine ⟨' ' :: (spaceJoin (List.replicate (n + 1) s)).data, ?_⟩
    rw [spaceJoin_replicate_succ, String.data_append, String.data_append]
    simp

/-- The space-join of copies of `s` ends with the characters of `s`. -/
theorem spaceJoin_replicate_data_last (s : String) : ∀ n : Nat,
    ∃ pre, (spaceJoin (List.replicate (n + 1) s)).data = pre ++ s.data
  | 0 => ⟨[], by simp [List.replicate, spaceJoin]⟩
  | n + 1 => by
    obtain ⟨pre, hpre⟩ := spaceJoin_replicate_data_last s n
    refine ⟨s.data ++ [' '] ++ pre, ?_⟩
    rw [spaceJoin_replicate_succ, String.data_append, String.data_append, hpre]
    simp

/-- The space-join of copies of a non-empty, stripped `s` is itself
stripped: no leading and no trailing whitespace. -/
theorem stripList_spaceJoin_replicate (s : String) (hs : stripList s.data = s.data)
    (hne : s.data ≠ []) (n : Nat) :
    stripList (spaceJoin (List.replicate (n + 1) s)).data
      = (spaceJoin (List.replicate (n + 1) s)).data := by
  obtain ⟨hL, hR⟩ := strip_sides_of_stripList_eq hs
  obtain ⟨rest, hrest⟩ := spaceJoin_replicate_data_head s n
  obtain ⟨pre, hpre⟩ := spaceJoin_replicate_data_last s n
  cases hd : s.data with
  | nil => exact absurd hd hne
  | cons a t =>
    have ha : Char.isWhitespace a = false := by
      apply head_false_of_dropWhile_eq_self Char.isWhitespace a t
      rw [← hd]
      exact hL
    have hLJ : stripL (spaceJoin (List.replicate (n + 1) s)).data
        = (spaceJoin (List.replicate (n + 1) s)).data := by
      rw [hrest, hd]
      exact stripL_append_of_head t rest ha
    have hRrev : List.dropWhile Char.isWhitespace s.data.reverse = s.data.reverse := by
      have := congrArg List.reverse hR
      simpa [stripR] using this
    have hRJ : stripR (spaceJoin (List.replicate (n + 1) s)).data
        = (spaceJoin (List.replicate (n + 1) s)).data := by
      rw [hpre]
      simp only [stripR, List.reverse_append]
      cases hrd : s.data.reverse with
      | nil => simp at hrd; exact absurd hrd hne
      | cons b u =>
        have hb : Char.isWhitespace b = false := by
          apply head_false_of_dropWhile_eq_self Char.isWhitespace b u
          rw [← hrd]
          exact hRrev
        rw [List.cons_append, List.dropWhile_cons_of_neg (by simp [hb]), ← List.cons_append,
          ← hrd]
        simp
    rw [stripList, hLJ, hRJ]

/-- C7: `num_function` passes its input through unchanged when the number
marker is the empty sentinel, and otherwise returns the input repeated,
space-joined, as many times as the marker's length (trailing whitespace
trimmed), for every non-empty input with no surrounding whitespace. -/
theorem num_function_repeats_input (s m : String) (h1 : pyStrip s = s) (h2 : s ≠ "") :
    num_function s m = if m = EMPTY then s else spaceJoin (List.replicate m.length s) := by
  have hdata : stripList s.data = s.data := congrArg String.data h1
  have hne : s.data ≠ [] := by
    intro hd
    exact h2 (String.ext hd)
  by_cases hm : m = EMPTY
  · simp [num_function, hm]
  · rw [if_neg hm, num_function, if_neg hm]
    cases hn : m.length with
    | zero =>
      rw [show pyRepeat (s ++ " ") 0 = "" from rfl]
      rfl
    | succ n =>
      apply String.ext
      show stripList (pyRepeat (s ++ " ") (n + 1)).data = _
      rw [pyRepeat_data_spaceJoin s n]
      apply stripList_append_space
      · exact stripList_spaceJoin_replicate s hdata hne n
      · obtain ⟨rest, hrest⟩ := spaceJoin_replicate_data_head s n
        rw [hrest]
        intro hcon
        rw [List.append_eq_nil] at hcon
        exact hne hcon.1

/-- C7 witness: the claim's concrete example — the template
`"I_TURN_RIGHT act"` with the 2-repetition marker resolved from `"twice"`
doubles, and with the empty marker passes through. -/
theorem num_function_repeats_input_witness :
    (num_function "I_TURN_RIGHT act" "xx"
      = if ("xx" : String) = EMPTY then "I_TURN_RIGHT act"
        else spaceJoin (List.replicate ("xx" : String).length "I_TURN_RIGHT act"))
    ∧ resolve_num "twice" = some "xx"
    ∧ spaceJoin (List.replicate ("xx" : String).length "I_TURN_RIGHT act")
        = "I_TURN_RIGHT act I_TURN_RIGHT act"
    ∧ num_function "I_TURN_RIGHT act" EMPTY = "I_TURN_RIGHT act" :=
  ⟨num_function_repeats_input "I_TURN_RIGHT act" "xx" (by decide) (by decide),
   rfl, by decide, by decide⟩

/-- C9: the `actions` lexicon maps the surface word `"turn"` to the sentinel
`"EMPTY"`, so `action_function` substitutes the literal string `"EMPTY"` for
each `"act"` placeholder; the sentinel thus appears inside composed action
sequences, e.g. `"I_TURN_LEFT EMPTY"`, which is also a member of the
enumerated output domain of `act1_trn1_dir1`. -/
theorem actions_turn_yields_sentinel_in_output :
    actions "turn" = some "EMPTY"
    ∧ action_function "turn" "I_TURN_LEFT act" = some "I_TURN_LEFT EMPTY"
    ∧ "I_TURN_LEFT EMPTY" ∈ values_act1_trn1_dir1 := by
  decide

/-- The spec-described padder fills exactly as many slots as there are
position vocabularies. -/
theorem padSpecGo_length : ∀ (V : List (List String)) (ws : List String),
    (padSpecGo V ws).length = V.length
  | [], _ => rfl
  | _ :: vs, [] => by simp [padSpecGo, padSpecGo_length vs []]
  | v :: vs, w :: ws => by
    by_cases hw : w ∈ v
    · simp [padSpecGo, hw, padSpecGo_length vs ws]
    · simp [padSpecGo, hw, padSpecGo_length vs (w :: ws)]

/-- Dropping `i < 9` entries of the position-vocabulary table exposes the
`i`-th expected vocabulary at the head. -/
theorem vocabList_drop (i : Nat) (hi : i < 9) :
    vocabList.drop i = slotVocab i :: vocabList.drop (i + 1) := by
  interval_cases i <;> rfl

/-- The source padding loop, started at position `index` with `remaining`
iterations left, agrees with the spec-described padder on the remaining
position vocabularies and the unconsumed words. -/
theorem padGo_eq_padSpecGo : ∀ (remaining index c : Nat) (cmd : List String),
    index + remaining = max_len →
    padGo cmd index c remaining = padSpecGo (vocabList.drop index) (cmd.drop c) := by
  intro remaining
  induction remaining with
  | zero =>
    intro index c cmd h
    have hidx : index = 9 := by simpa [max_len] using h
    subst hidx
    rfl
  | succ r ih =>
    intro index c cmd h
    have hi : index < 9 := by simp [max_len] at h; omega
    have hnext : index + 1 + r = max_len := by simp [max_len] at h ⊢; omega
    rw [vocabList_drop index hi]
    cases hc : cmd[c]? with
    | none =>
      have hlen : cmd.length ≤ c := List.getElem?_eq_none_iff.mp hc
      have hdrop : cmd.drop c = [] := List.drop_eq_nil_of_le hlen
      rw [hdrop]
      simp only [padGo, hc, padSpecGo]
      rw [ih (index + 1) c cmd hnext, hdrop]
    | some w =>
      obtain ⟨hlt, hw_eq⟩ := List.getElem?_eq_some.mp hc
      have hdrop : cmd.drop c = w :: cmd.drop (c + 1) := by
        rw [List.drop_eq_getElem_cons hlt, hw_eq]
      rw [hdrop]
      by_cases hw : w ∈ slotVocab index
      · simp only [padGo, hc, padSpecGo, if_pos hw]
        rw [ih (index + 1) (c + 1) cmd hnext]
      · simp only [padGo, hc, padSpecGo, if_neg hw]
        rw [ih (index + 1) c cmd hnext, hdrop]

/-- C8: for every tokenized input command, the source's padding loop is
exactly the spec's single left-to-right greedy pass — at each of the nine
positions the next unconsumed word is consumed when it belongs to that
position's expected vocabulary and the slot is otherwise filled with the
empty sentinel with the word retried at the next position — and the output
always has exactly 9 slots, unconsumed trailing words being dropped. -/
theorem padder_single_greedy_pass (cmd : List String) :
    pad cmd = padSpec cmd ∧ (pad cmd).length = 9 := by
  have h := padGo_eq_padSpecGo max_len 0 0 cmd rfl
  have hmain : pad cmd = padSpec cmd := by
    simpa [pad, padSpec] using h
  refine ⟨hmain, ?_⟩
  rw [hmain, padSpec, padSpecGo_length]
  rfl

end ScanCausal

namespace RLTrainers

/-- C10: `score_function` with `metric="acc"` returns a `(score, score_mask)`
pair without raising, and with any metric other than the two recognized
branch labels it raises the invalid-configuration `ValueError`. -/
theorem score_function_metric_handling (ii pid : Int)
    (o g c : List Int) (m : String) (h1 : m ≠ "acc") (h2 : m ≠ "incr_acc") :
    (∃ p, score_function ii pid o g c "acc" = Except.ok p)
    ∧ score_function ii pid o g c m
        = Except.error "Incorrect metric passed to score function" := by
  constructor
  · exact ⟨_, rfl⟩
  · simp only [score_function, if_neg h1, if_neg h2]

/-- C10 witness: instantiation at concrete tensors and the unrecognized
metric `"bleu"`. -/
theorem score_function_metric_handling_witness :
    (∃ p, score_function (-100) 50256 [1, 2] [1, 2] [-100, 3] "acc" = Except.ok p)
    ∧ score_function (-100) 50256 [1, 2] [1, 2] [-100, 3] "bleu"
        = Except.error "Incorrect metric passed to score function" :=
  score_function_metric_handling (-100) 50256 [1, 2] [1, 2] [-100, 3] "bleu"
    (by decide) (by decide)

end RLTrainers
